import Mathlib

/-!
Verification of the api-gateway subsystem of the microservice-sales-management
repository: the service registry, the round-robin load balancer
(src/api-gateway/utils/loadbalancer.js) and the registration/proxy routes
(src/api-gateway/routes/index.js), shallowly embedded in Lean.

The JS registry is a mutable in-memory object; here every route is a pure
function from the registry state (plus the request) to the new registry state
and an outcome.  A JS exception escaping a handler is modelled as an
`Except.error`; the response actually written with `res.status(..).json(..)`
is modelled as an `Except.ok` carrying the status and JSON body.
-/

namespace Gateway

/-- A JSON value, the shape of request/response bodies and of the values the
routes build with object literals.  Only the constructors the gateway code
produces or inspects are needed. -/
inductive JsonV where
  | null : JsonV
  | bool (b : Bool) : JsonV
  | num (n : Int) : JsonV
  | str (s : String) : JsonV
  | obj (fields : List (String × JsonV)) : JsonV

/-- JavaScript truthiness of a JSON value (`undefined` is covered by
`Option.none` wherever a field may be absent). -/
def jsTruthy : JsonV → Bool
  | JsonV.null => false
  | JsonV.bool b => b
  | JsonV.num n => n != 0
  | JsonV.str s => s != ""
  | JsonV.obj _ => true

/-- Property access `v.key` on a JSON value: `none` models `undefined`
(access on a non-object or a missing key). -/
def jsonField (v : JsonV) (key : String) : Option JsonV :=
  match v with
  | JsonV.obj fields => (fields.find? (fun p => p.1 == key)).map (fun p => p.2)
  | _ => none

/-- Number of fields of a top-level JSON object (0 otherwise); used only to
tell two concrete bodies apart. -/
def topFieldCount : JsonV → Nat
  | JsonV.obj fields => fields.length
  | _ => 0

/-- An HTTP response as a route produces it: `res.status(status).json(body)`. -/
structure HttpResponse where
  status : Nat
  body : JsonV

/-- A JS exception escaping a route handler uncaught. -/
inductive JsError where
  /-- Reading a property of `undefined`, or calling `undefined` (e.g.
  `registry.services[apiName].instances` for an unknown `apiName`). -/
  | typeError : JsError
  /-- `throw new Error(msg)`. -/
  | thrown (msg : String) : JsError
deriving DecidableEq

/-- One registered instance of a backend service, as stored in
`registry.services[name].instances[i]`.  The JS object spread
`{ ...registrationInfo }` in the register route carries no `enabled`
property; since `undefined` is falsy in every read of `instance.enabled`,
an absent flag is modelled as `false`. -/
structure Instance where
  protocol : String
  host : String
  port : Nat
  url : String
  enabled : Bool
deriving DecidableEq

/-- A service record of `registry.json`: the cursor field is called `index`
in the source (`service.index`), the strategy name selects the entry of the
`loadbalancer` object, `none` models an absent/falsy `loadBalanceStrategy`. -/
structure Service where
  index : Nat
  loadBalanceStrategy : Option String
  instances : List Instance
deriving DecidableEq

/-- `registry.services`: the mapping from service name to record. -/
abbrev Registry := List (String × Service)

/-- `registry.services[name]` (`none` models `undefined`). -/
def lookupService (r : Registry) (name : String) : Option Service :=
  (r.find? (fun p => p.1 == name)).map (fun p => p.2)

/-- In-place mutation of the record under `name` (JS mutates the object the
lookup aliased; state passing replaces it). -/
def updateService (r : Registry) (name : String) (s : Service) : Registry :=
  r.map (fun p => if p.1 == name then (p.1, s) else p)

/-! ### The load balancer (src/api-gateway/utils/loadbalancer.js)

```js
loadbalancer.ROUND_ROBIN = (service) => {
    const newIndex = ++service.index >= service.instances.length ? 0 : service.index;
    service.index = newIndex;
    if (!service.instances.some(instance => instance.enabled)) {
        throw new Error('No enabled instances available');
    }
    return loadbalancer.isEnabled(service, newIndex, loadbalancer.ROUND_ROBIN);
};
loadbalancer.isEnabled = (service, index, loadBalanceStrategy) => {
    return service.instances[index].enabled ? index : loadBalanceStrategy(service);
};
```
-/

/-- Outcomes of `ROUND_ROBIN` other than returning an index. -/
inductive RRError where
  /-- `throw new Error('No enabled instances available')`. -/
  | noEnabledInstances : RRError
  /-- `service.instances[index]` was `undefined` (never reached: the index is
  always in range once the some-enabled check has passed, see
  `roundRobinFuel_ok`). -/
  | typeError : RRError
  /-- Artifact of the fuelled embedding of the JS mutual recursion; proven
  unreachable for fuel larger than the instance count. -/
  | outOfFuel : RRError
deriving DecidableEq

/-- `newIndex = ++service.index >= service.instances.length ? 0 : service.index`:
the cursor value after one advance of the round-robin cursor. -/
def advance (len idx : Nat) : Nat :=
  if idx + 1 ≥ len then 0 else idx + 1

/-- `instance.enabled` at position `i`, out-of-range reads giving `undefined`
(falsy). -/
def enabledAt (l : List Instance) (i : Nat) : Bool :=
  match l[i]? with
  | some inst => inst.enabled
  | none => false

/-- The mutual recursion `ROUND_ROBIN`/`isEnabled`, fuelled: each unit of fuel
is one call of `ROUND_ROBIN`.  The pair returned is the JS return value (or
escaped exception) together with the service record as the in-place cursor
mutations left it. -/
def roundRobinFuel : Nat → Service → Except RRError Nat × Service
  | 0, s => (Except.error RRError.outOfFuel, s)
  | fuel + 1, s =>
    let newIndex := advance s.instances.length s.index
    let s1 : Service := { s with index := newIndex }
    if s1.instances.any (fun inst => inst.enabled) then
      match s1.instances[newIndex]? with
      | none => (Except.error RRError.typeError, s1)
      | some inst =>
        if inst.enabled then (Except.ok newIndex, s1)
        else roundRobinFuel fuel s1
    else
      (Except.error RRError.noEnabledInstances, s1)

/-- `loadbalancer.ROUND_ROBIN`: the fuel `instances.length + 1` is proven
sufficient (`roundRobinFuel_ok`), so this equals the JS unbounded recursion
wherever the latter terminates, and the JS recursion does terminate on every
input (it throws at once when no instance is enabled). -/
def ROUND_ROBIN (s : Service) : Except RRError Nat × Service :=
  roundRobinFuel (s.instances.length + 1) s

/-- The cursor value after `k` advances. -/
def iterAdvance (len : Nat) : Nat → Nat → Nat
  | 0, c => c
  | k + 1, c => iterAdvance len k (advance len c)

/-- `n` consecutive selections against one service record, collecting the
returned indices; a thrown selection ends the run. -/
def selectN : Nat → Service → List Nat × Service
  | 0, s => ([], s)
  | n + 1, s =>
    match ROUND_ROBIN s with
    | (Except.ok i, s1) =>
      match selectN n s1 with
      | (rest, s2) => (i :: rest, s2)
    | (Except.error _, s1) => ([], s1)

/-! ### The routes (src/api-gateway/routes/index.js)

Each route becomes a function from the registry state and the request data to
the new registry state and either the written response or the escaped JS
exception.  `fs.writeFile` is modelled by a `persist : Option String`
environment parameter: `none` means the write callback ran without error,
`some e` that it reported error text `e`. -/

/-- The request body of `POST /register` (and, per the documented interface,
of `POST /unregister`): `{apiName, protocol, host, port}`. -/
structure RegBody where
  apiName : String
  protocol : String
  host : String
  port : Nat
deriving DecidableEq

/-- Line 96: `registrationInfo.url = registrationInfo.protocol + "://" +
registrationInfo.host + ":" + registrationInfo.port + "/"`. -/
def deriveUrl (b : RegBody) : String :=
  b.protocol ++ "://" ++ b.host ++ ":" ++ toString b.port ++ "/"

/-- The object pushed by line 105, `{ ...registrationInfo }`, after the url
of line 96 was added; it has no `enabled` property (modelled `false`, see
`Instance`). -/
def mkInstance (b : RegBody) : Instance :=
  { protocol := b.protocol, host := b.host, port := b.port
    url := deriveUrl b, enabled := false }

/-- `apiAlreadyExists` (lines 150-160) restricted to the record the lookup
`registry.services[registrationInfo.apiName]` yields: true iff some instance
has `instance.url === url`.  The route-level wrappers below add the
`TypeError` thrown by that lookup when the service name is unknown.
`url` is an `Option` because the unregister route reads
`registrationInfo.url` without ever assigning it: `undefined === instance.url`
is false for every instance. -/
def apiAlreadyExists (s : Service) (url : Option String) : Bool :=
  s.instances.any (fun inst =>
    match url with
    | some u => inst.url == u
    | none => false)

/-- The instance-list append performed by the register route. -/
def registerInstance (s : Service) (inst : Instance) : Service :=
  { s with instances := s.instances ++ [inst] }

/-- `instances.splice(index, 1)` of the unregister route. -/
def removeInstanceAt (s : Service) (i : Nat) : Service :=
  { s with instances := s.instances.eraseIdx i }

/-- `instances[index].enabled = requestBody.enabled` of the enable/disable
route (out-of-range index leaves the list unchanged; the route only uses it
with a found index). -/
def setEnabledAt (s : Service) (i : Nat) (b : Bool) : Service :=
  match s.instances[i]? with
  | some inst => { s with instances := s.instances.set i { inst with enabled := b } }
  | none => s

/-- Interpolation of a possibly-undefined string into a template literal. -/
def urlText : Option String → String
  | some u => u
  | none => "undefined"

/-- `router.post('/register')` (lines 92-118).  The url is derived, the
duplicate check runs, and on the fresh path the instance is appended before
`fs.writeFile`; the callback then reports 200 on success and 500 on a write
error, the in-memory append staying either way. -/
def registerRoute (r : Registry) (b : RegBody) (persist : Option String) :
    Registry × Except JsError HttpResponse :=
  let url := deriveUrl b
  match lookupService r b.apiName with
  | none => (r, Except.error JsError.typeError)
  | some s =>
    if apiAlreadyExists s (some url) then
      (r, Except.ok ⟨400, JsonV.obj [("message", JsonV.str
        ("Configuration already exists for '" ++ b.apiName ++ "' at '" ++ url ++ "'"))]⟩)
    else
      let r1 := updateService r b.apiName (registerInstance s (mkInstance b))
      match persist with
      | some e => (r1, Except.ok ⟨500, JsonV.obj [("message", JsonV.str
          ("Could not register '" ++ b.apiName ++ "'\n" ++ e))]⟩)
      | none => (r1, Except.ok ⟨200, JsonV.obj [("message", JsonV.str
          ("Successfully registered '" ++ b.apiName ++ "'"))]⟩)

/-- `router.post('/unregister')` (lines 121-147).  The route never assigns
`registrationInfo.url` (unlike register, which derives it on line 96), so
`urlField` is exactly the `url` property of the request body: `none` when the
body is the documented `{apiName, protocol, host, port}`. -/
def unregisterRoute (r : Registry) (apiName : String) (urlField : Option String)
    (persist : Option String) : Registry × Except JsError HttpResponse :=
  match lookupService r apiName with
  | none => (r, Except.error JsError.typeError)
  | some s =>
    if apiAlreadyExists s urlField then
      let i := s.instances.findIdx (fun inst =>
        match urlField with
        | some u => u == inst.url
        | none => false)
      let r1 := updateService r apiName (removeInstanceAt s i)
      match persist with
      | some e => (r1, Except.ok ⟨500, JsonV.obj [("message", JsonV.str
          ("Could not unregister '" ++ apiName ++ "'\n" ++ e))]⟩)
      | none => (r1, Except.ok ⟨201, JsonV.obj [("message", JsonV.str
          ("Successfully unregistered '" ++ apiName ++ "'"))]⟩)
    else
      (r, Except.ok ⟨404, JsonV.obj [("message", JsonV.str
        ("Configuration does not exist for '" ++ apiName ++ "' at '" ++ urlText urlField ++ "'"))]⟩)

/-- `router.post('/enableOrDisable/:apiName')` (lines 10-33).  Line 14 reads
`registry.services[apiName].instances` with no existence check: an unknown
service name throws a `TypeError` instead of producing a response. -/
def enableOrDisableRoute (r : Registry) (apiName url : String) (enabled : Bool)
    (persist : Option String) : Registry × Except JsError HttpResponse :=
  match lookupService r apiName with
  | none => (r, Except.error JsError.typeError)
  | some s =>
    match s.instances.findIdx? (fun inst => inst.url == url) with
    | none =>
      (r, Except.ok ⟨404, JsonV.obj [("status", JsonV.str "error"), ("message", JsonV.str
        ("Could not find '" ++ url ++ "' for service '" ++ apiName ++ "'"))]⟩)
    | some i =>
      let r1 := updateService r apiName (setEnabledAt s i enabled)
      match persist with
      | some e => (r1, Except.ok ⟨500, JsonV.obj [("message", JsonV.str
          ("Could not enable/disable '" ++ url ++ "' for service '" ++ apiName ++ "'\n" ++ e))]⟩)
      | none => (r1, Except.ok ⟨200, JsonV.obj [("message", JsonV.str
          ("Successfully enable/disable '" ++ url ++ "' for service '" ++ apiName ++ "'"))]⟩)

/-! ### The proxy route `router.all('/:apiName/*')` (lines 36-89) -/

/-- What the downstream `axios({...})` call came to: a response with some
status and body, no response at all, or a local request-setup error. -/
inductive Downstream where
  | response (status : Nat) (body : JsonV) : Downstream
  | noResponse (errMessage : String) : Downstream
  | setupError (errMessage : String) : Downstream

/-- `error.response.data.message || 'An error occurred'` and the wrapping
`{ message, error }` of lines 72-75. -/
def wrapAxiosErrorBody (data : JsonV) : JsonV :=
  JsonV.obj
    [("message",
      match jsonField data "message" with
      | some v => if jsTruthy v then v else JsonV.str "An error occurred"
      | none => JsonV.str "An error occurred"),
     ("error", data)]

/-- Lines 58-85: the response the proxy route writes once the downstream call
settles.  axios resolves exactly for statuses in [200, 300) (its default
`validateStatus`); any other status lands in the catch with `error.response`
set, no response received lands there with `error.request` set, and a setup
error with neither. -/
def relayDownstream (down : Downstream) : HttpResponse :=
  match down with
  | Downstream.response st body =>
    if 200 ≤ st ∧ st < 300 then ⟨st, body⟩
    else ⟨st, wrapAxiosErrorBody body⟩
  | Downstream.noResponse m =>
    ⟨502, JsonV.obj [("message", JsonV.str "No response received from the API"),
      ("error", JsonV.str m)]⟩
  | Downstream.setupError m =>
    ⟨500, JsonV.obj [("message", JsonV.str ("Request setup error: " ++ m))]⟩

/-- The proxy route.  Unknown service: 400.  Absent (falsy) strategy:
defaulted to ROUND_ROBIN on the record (its `fs.writeFile` is fire-and-forget
for the main flow, so not a parameter here).  `loadbalancer[strategy]` with
any other strategy name is `undefined`, so calling it throws.  A throw from
`ROUND_ROBIN` escapes the handler uncaught — the route has no try/catch
around the selection.  The cursor mutation stays in the registry in every
outcome, as in JS where `service` aliases the registry record. -/
def handleApiRequest (r : Registry) (apiName : String) (down : Downstream) :
    Registry × Except JsError HttpResponse :=
  match lookupService r apiName with
  | none => (r, Except.ok ⟨400, JsonV.obj [("message", JsonV.str "Service name does not exist")]⟩)
  | some service =>
    let service1 :=
      match service.loadBalanceStrategy with
      | none => { service with loadBalanceStrategy := some "ROUND_ROBIN" }
      | some strat => { service with loadBalanceStrategy := some strat }
    let r1 := updateService r apiName service1
    match service1.loadBalanceStrategy with
    | some "ROUND_ROBIN" =>
      match ROUND_ROBIN service1 with
      | (Except.ok i, service2) =>
        let r2 := updateService r1 apiName service2
        match service2.instances[i]? with
        | some _inst => (r2, Except.ok (relayDownstream down))
        | none => (r2, Except.error JsError.typeError)
      | (Except.error RRError.noEnabledInstances, service2) =>
        (updateService r1 apiName service2,
          Except.error (JsError.thrown "No enabled instances available"))
      | (Except.error _, service2) =>
        (updateService r1 apiName service2, Except.error JsError.typeError)
    | _ => (r1, Except.error JsError.typeError)

/-- The global error handler of gateway.js composed over a route outcome.
Modelled from the spec: the express dispatch of an error escaping a handler
is not part of the repository source under src/ (it lives in the framework);
per the spec every failure still produces a structured response to the
client, and gateway.js installs exactly this handler:
`res.status(500).json({ error: 'Internal Server Error. Please try again later.' })`. -/
def gatewayRespond (outcome : Except JsError HttpResponse) : HttpResponse :=
  match outcome with
  | Except.ok resp => resp
  | Except.error _ =>
    ⟨500, JsonV.obj [("error", JsonV.str "Internal Server Error. Please try again later.")]⟩

/-- A sequence of register calls (all persists succeeding), collecting the
per-call outcomes. -/
def registerAll : Registry → List RegBody → Registry × List (Except JsError HttpResponse)
  | r, [] => (r, [])
  | r, b :: rest =>
    match registerRoute r b none with
    | (r1, resp) =>
      match registerAll r1 rest with
      | (r2, resps) => (r2, resp :: resps)

/-- The cursor invariant of the spec: whenever the instance list is
non-empty, `index` is a valid position in it. -/
def cursorInv (s : Service) : Prop :=
  s.instances ≠ [] → s.index < s.instances.length

instance (s : Service) : Decidable (cursorInv s) := by
  unfold cursorInv; infer_instance

/-! ### Lemmas about the cursor advance -/

theorem advance_lt {len : Nat} (h : 0 < len) (idx : Nat) : advance len idx < len := by
  unfold advance; split <;> omega

theorem advance_eq_mod {len idx : Nat} (h : idx < len) : advance len idx = (idx + 1) % len := by
  unfold advance; split
  · have hlen : idx + 1 = len := by omega
    simp [hlen]
  · rw [Nat.mod_eq_of_lt (by omega)]

theorem iterAdvance_mod {len : Nat} (h : 0 < len) :
    ∀ (k c : Nat), c < len → iterAdvance len k c = (c + k) % len := by
  intro k
  induction k with
  | zero => intro c hc; simp [iterAdvance, Nat.mod_eq_of_lt hc]
  | succ k ih =>
    intro c hc
    have h1 : iterAdvance len (k + 1) c = iterAdvance len k (advance len c) := rfl
    rw [h1, ih (advance len c) (advance_lt h c), advance_eq_mod hc, Nat.mod_add_mod]
    have h2 : c + 1 + k = c + (k + 1) := by omega
    rw [h2]

theorem length_pos_of_any {l : List Instance} {p : Instance → Bool}
    (h : l.any p = true) : 0 < l.length := by
  rcases List.any_eq_true.mp h with ⟨x, hx, _⟩
  exact List.length_pos_of_mem hx

/-! ### Step lemmas for the fuelled round robin -/

theorem roundRobinFuel_step_ok {f : Nat} {s : Service} {inst : Instance}
    (hany : s.instances.any (fun i => i.enabled) = true)
    (hg : s.instances[advance s.instances.length s.index]? = some inst)
    (hinst : inst.enabled = true) :
    roundRobinFuel (f + 1) s =
      (Except.ok (advance s.instances.length s.index),
        { s with index := advance s.instances.length s.index }) := by
  simp [roundRobinFuel, hany, hg, hinst]

theorem roundRobinFuel_step_rec {f : Nat} {s : Service} {inst : Instance}
    (hany : s.instances.any (fun i => i.enabled) = true)
    (hg : s.instances[advance s.instances.length s.index]? = some inst)
    (hinst : inst.enabled = false) :
    roundRobinFuel (f + 1) s =
      roundRobinFuel f { s with index := advance s.instances.length s.index } := by
  simp [roundRobinFuel, hany, hg, hinst]

theorem roundRobinFuel_noEnabled {f : Nat} {s : Service}
    (hany : s.instances.any (fun i => i.enabled) = false) :
    roundRobinFuel (f + 1) s =
      (Except.error RRError.noEnabledInstances,
        { s with index := advance s.instances.length s.index }) := by
  simp [roundRobinFuel, hany]

/-- Adequacy of the fuel: when some instance within reach (after `n + 1`
advances) is enabled and the fuel is at least `n + 1`, the recursion returns
the index found by advancing the cursor one step at a time until the first
enabled instance, having mutated the cursor to that index. -/
theorem roundRobinFuel_ok :
    ∀ (n fuel : Nat) (s : Service), n + 1 ≤ fuel →
    s.instances.any (fun inst => inst.enabled) = true →
    enabledAt s.instances (iterAdvance s.instances.length (n + 1) s.index) = true →
    ∃ k, 1 ≤ k ∧ k ≤ n + 1 ∧
      roundRobinFuel fuel s =
        (Except.ok (iterAdvance s.instances.length k s.index),
          { s with index := iterAdvance s.instances.length k s.index }) ∧
      enabledAt s.instances (iterAdvance s.instances.length k s.index) = true ∧
      ∀ j, 1 ≤ j → j < k →
        enabledAt s.instances (iterAdvance s.instances.length j s.index) = false := by
  intro n
  induction n with
  | zero =>
    intro fuel s hfuel hany hen
    obtain ⟨f, rfl⟩ : ∃ f, fuel = f + 1 := ⟨fuel - 1, by omega⟩
    have hen1 : enabledAt s.instances (advance s.instances.length s.index) = true := hen
    cases hg : s.instances[advance s.instances.length s.index]? with
    | none => simp [enabledAt, hg] at hen1
    | some inst =>
      have hinst : inst.enabled = true := by simpa [enabledAt, hg] using hen1
      exact ⟨1, le_refl 1, le_refl 1, roundRobinFuel_step_ok hany hg hinst, hen,
        fun j hj1 hj2 => by omega⟩
  | succ n ih =>
    intro fuel s hfuel hany hen
    obtain ⟨f, rfl⟩ : ∃ f, fuel = f + 1 := ⟨fuel - 1, by omega⟩
    have hlen : 0 < s.instances.length := length_pos_of_any hany
    have hplt : advance s.instances.length s.index < s.instances.length :=
      advance_lt hlen s.index
    cases hg : s.instances[advance s.instances.length s.index]? with
    | none =>
      rw [List.getElem?_eq_none_iff] at hg
      omega
    | some inst =>
      cases hinst : inst.enabled with
      | true =>
        have hen1 : enabledAt s.instances (advance s.instances.length s.index) = true := by
          simp [enabledAt, hg, hinst]
        exact ⟨1, le_refl 1, by omega, roundRobinFuel_step_ok hany hg hinst, hen1,
          fun j hj1 hj2 => by omega⟩
      | false =>
        have hstep := roundRobinFuel_step_rec (f := f) hany hg hinst
        have hrec := ih f { s with index := advance s.instances.length s.index }
          (by omega) hany hen
        obtain ⟨k, hk1, hk2, heq, henk, hmin⟩ := hrec
        have heq2 : roundRobinFuel f { s with index := advance s.instances.length s.index } =
            (Except.ok (iterAdvance s.instances.length (k + 1) s.index),
              { s with index := iterAdvance s.instances.length (k + 1) s.index }) := heq
        have henk2 : enabledAt s.instances (iterAdvance s.instances.length (k + 1) s.index) = true :=
          henk
        refine ⟨k + 1, by omega, by omega, ?_, henk2, ?_⟩
        · rw [hstep, heq2]
        · intro j hj1 hj2
          match j, hj1 with
          | 1, _ => simpa [enabledAt, iterAdvance, hg] using hinst
          | (j' + 2), _ => exact hmin (j' + 1) (by omega) (by omega)

/-- Some enabled instance is reached within one full sweep of advances from
any starting cursor. -/
theorem exists_enabled_step (s : Service)
    (hany : s.instances.any (fun inst => inst.enabled) = true) :
    ∃ n, n + 1 ≤ s.instances.length ∧
      enabledAt s.instances (iterAdvance s.instances.length (n + 1) s.index) = true := by
  obtain ⟨x, hx, hex⟩ := List.any_eq_true.mp hany
  obtain ⟨j, hj⟩ := List.getElem?_of_mem hx
  have hjlen : j < s.instances.length := by
    rcases List.getElem?_eq_some_iff.mp hj with ⟨h, _⟩
    exact h
  have hlen : 0 < s.instances.length := by omega
  have hplt : advance s.instances.length s.index < s.instances.length :=
    advance_lt hlen s.index
  obtain ⟨t, ht1, ht2⟩ :
      ∃ t, t < s.instances.length ∧
        (advance s.instances.length s.index + t) % s.instances.length = j := by
    by_cases hc : advance s.instances.length s.index ≤ j
    · refine ⟨j - advance s.instances.length s.index, by omega, ?_⟩
      have hsum : advance s.instances.length s.index +
          (j - advance s.instances.length s.index) = j := by omega
      rw [hsum, Nat.mod_eq_of_lt hjlen]
    · refine ⟨s.instances.length + j - advance s.instances.length s.index, by omega, ?_⟩
      have hsum : advance s.instances.length s.index +
          (s.instances.length + j - advance s.instances.length s.index) =
          s.instances.length + j := by omega
      rw [hsum, Nat.add_mod_left, Nat.mod_eq_of_lt hjlen]
  refine ⟨t, by omega, ?_⟩
  have h1 : iterAdvance s.instances.length (t + 1) s.index =
      iterAdvance s.instances.length t (advance s.instances.length s.index) := rfl
  rw [h1, iterAdvance_mod hlen t _ hplt, ht2]
  simp [enabledAt, hj, hex]

/-- `ROUND_ROBIN` on a record with some enabled instance: it returns, within
one sweep, the first enabled index reached by repeated advances, and leaves
the cursor there. -/
theorem rr_select (s : Service)
    (hany : s.instances.any (fun inst => inst.enabled) = true) :
    ∃ k, 1 ≤ k ∧ k ≤ s.instances.length ∧
      ROUND_ROBIN s =
        (Except.ok (iterAdvance s.instances.length k s.index),
          { s with index := iterAdvance s.instances.length k s.index }) ∧
      enabledAt s.instances (iterAdvance s.instances.length k s.index) = true ∧
      ∀ j, 1 ≤ j → j < k →
        enabledAt s.instances (iterAdvance s.instances.length j s.index) = false := by
  obtain ⟨n, hn1, hn2⟩ := exists_enabled_step s hany
  obtain ⟨k, hk1, hk2, heq, henk, hmin⟩ :=
    roundRobinFuel_ok n (s.instances.length + 1) s (by omega) hany hn2
  exact ⟨k, hk1, by omega, heq, henk, hmin⟩

/-- Whenever the fuelled recursion returns an index, the service record kept
its instance list and strategy, the cursor was left at the returned index,
and that index is in range. -/
theorem roundRobinFuel_ok_shape :
    ∀ (fuel : Nat) (s : Service) (i : Nat) (s' : Service),
    roundRobinFuel fuel s = (Except.ok i, s') →
    s'.instances = s.instances ∧ s'.loadBalanceStrategy = s.loadBalanceStrategy ∧
    s'.index = i ∧ i < s.instances.length := by
  intro fuel
  induction fuel with
  | zero =>
    intro s i s' h
    simp [roundRobinFuel] at h
  | succ f ih =>
    intro s i s' h
    cases hany : s.instances.any (fun inst => inst.enabled) with
    | false =>
      rw [roundRobinFuel_noEnabled hany] at h
      simp at h
    | true =>
      cases hg : s.instances[advance s.instances.length s.index]? with
      | none =>
        have hlen : 0 < s.instances.length := length_pos_of_any hany
        have := advance_lt hlen s.index
        rw [List.getElem?_eq_none_iff] at hg
        omega
      | some inst =>
        cases hinst : inst.enabled with
        | true =>
          rw [roundRobinFuel_step_ok hany hg hinst] at h
          simp only [Prod.mk.injEq, Except.ok.injEq] at h
          obtain ⟨h1, h2⟩ := h
          subst h1
          subst h2
          have hlen : 0 < s.instances.length := length_pos_of_any hany
          exact ⟨rfl, rfl, rfl, advance_lt hlen s.index⟩
        | false =>
          rw [roundRobinFuel_step_rec hany hg hinst] at h
          obtain ⟨h1, h2, h3, h4⟩ := ih _ i s' h
          exact ⟨h1, h2, h3, by simpa using h4⟩

/-- With every instance enabled, a selection returns after a single advance:
the very first probed index is enabled. -/
theorem rr_all_enabled (s : Service) (hne : s.instances ≠ [])
    (hall : ∀ inst ∈ s.instances, inst.enabled = true) :
    ROUND_ROBIN s =
      (Except.ok (advance s.instances.length s.index),
        { s with index := advance s.instances.length s.index }) := by
  have hlen : 0 < s.instances.length := List.length_pos.mpr hne
  have hany : s.instances.any (fun inst => inst.enabled) = true := by
    rcases List.exists_mem_of_ne_nil s.instances hne with ⟨x, hx⟩
    exact List.any_eq_true.mpr ⟨x, hx, hall x hx⟩
  have hplt := advance_lt hlen s.index
  cases hg : s.instances[advance s.instances.length s.index]? with
  | none =>
    rw [List.getElem?_eq_none_iff] at hg
    omega
  | some inst =>
    have hmem : inst ∈ s.instances := by
      rcases List.getElem?_eq_some_iff.mp hg with ⟨hlt, hEq⟩
      exact hEq ▸ List.getElem_mem hlt
    exact roundRobinFuel_step_ok hany hg (hall inst hmem)

/-- The indices returned by `n` consecutive selections over an all-enabled
list: consecutive cursor positions modulo the length, starting one after the
initial cursor. -/
theorem selectN_all_enabled (n : Nat) :
    ∀ (s : Service), s.instances ≠ [] →
    (∀ inst ∈ s.instances, inst.enabled = true) →
    (selectN n s).1 = (List.range n).map
      (fun k => (advance s.instances.length s.index + k) % s.instances.length) := by
  induction n with
  | zero =>
    intro s hne hall
    simp [selectN]
  | succ n ih =>
    intro s hne hall
    have hlen : 0 < s.instances.length := List.length_pos.mpr hne
    have hplt := advance_lt hlen s.index
    have hrr := rr_all_enabled s hne hall
    have hih := ih { s with index := advance s.instances.length s.index } hne hall
    cases hsel : selectN n { s with index := advance s.instances.length s.index } with
    | mk rest s2 =>
      have hrest : rest = (List.range n).map
          (fun k => (advance s.instances.length
            (advance s.instances.length s.index) + k) % s.instances.length) := by
        simpa [hsel] using hih
      have hlhs : (selectN (n + 1) s).1 = advance s.instances.length s.index :: rest := by
        simp [selectN, hrr, hsel]
      rw [hlhs, hrest, List.range_succ_eq_map, List.map_cons, List.map_map]
      have hhead : (advance s.instances.length s.index + 0) % s.instances.length =
          advance s.instances.length s.index := by
        simpa using Nat.mod_eq_of_lt hplt
      rw [hhead]
      refine congrArg _ (List.map_congr_left ?_)
      intro k hk
      simp only [Function.comp_apply]
      rw [advance_eq_mod hplt, Nat.mod_add_mod]
      have : advance s.instances.length s.index + 1 + k =
          advance s.instances.length s.index + Nat.succ k := by omega
      rw [this]

/-- Consecutive residues modulo `N` starting anywhere are pairwise distinct
over one period. -/
theorem nodup_mod_map (N p : Nat) :
    ((List.range N).map (fun k => (p + k) % N)).Nodup := by
  refine List.Nodup.map_on ?_ (List.nodup_range N)
  intro x hx y hy hxy
  rw [List.mem_range] at hx hy
  have h2 : x % N = y % N := Nat.ModEq.add_left_cancel' p hxy
  rwa [Nat.mod_eq_of_lt hx, Nat.mod_eq_of_lt hy] at h2

/-- Replacing the record stored under a present name makes later lookups of
that name yield the replacement. -/
theorem lookupService_update_self (r : Registry) (a : String) (s s' : Service)
    (h : lookupService r a = some s) :
    lookupService (updateService r a s') a = some s' := by
  induction r with
  | nil => simp [lookupService] at h
  | cons p rest ih =>
    by_cases hpa : p.1 = a
    · simp [lookupService, updateService, List.find?_cons, hpa]
    · have h2 : lookupService rest a = some s := by
        simpa [lookupService, List.find?_cons, hpa] using h
      have h3 := ih h2
      simpa [lookupService, updateService, List.find?_cons, hpa] using h3

/-- An enabled position is in range. -/
theorem lt_of_enabledAt {l : List Instance} {i : Nat} (h : enabledAt l i = true) :
    i < l.length := by
  cases hg : l[i]? with
  | none => simp [enabledAt, hg] at h
  | some inst => exact (List.getElem?_eq_some_iff.mp hg).1

/-! ### Claim theorems -/

/-- C1: for every service record with a non-empty instance list containing at
least one enabled instance (and the cursor a valid index, the invariant state),
round-robin select advances the cursor one position at a time modulo the list
length — the returned index is `(cursor + k) % length` for the least `k ≥ 1`
whose position is enabled — returns at the first enabled position, and the
returned index always points to an enabled instance, with the cursor left on
it. -/
theorem C1_round_robin_selects_first_enabled (s : Service)
    (hidx : s.index < s.instances.length)
    (hen : s.instances.any (fun inst => inst.enabled) = true) :
    ∃ k, 1 ≤ k ∧ k ≤ s.instances.length ∧
      ROUND_ROBIN s =
        (Except.ok ((s.index + k) % s.instances.length),
          { s with index := (s.index + k) % s.instances.length }) ∧
      enabledAt s.instances ((s.index + k) % s.instances.length) = true ∧
      ∀ j, 1 ≤ j → j < k →
        enabledAt s.instances ((s.index + j) % s.instances.length) = false := by
  have hlen : 0 < s.instances.length := by omega
  obtain ⟨k, hk1, hk2, heq, henk, hmin⟩ := rr_select s hen
  refine ⟨k, hk1, hk2, ?_, ?_, ?_⟩
  · rw [← iterAdvance_mod hlen k s.index hidx]
    exact heq
  · rw [← iterAdvance_mod hlen k s.index hidx]
    exact henk
  · intro j hj1 hj2
    rw [← iterAdvance_mod hlen j s.index hidx]
    exact hmin j hj1 hj2

/-- Concrete record for the C1 witness: cursor 0, instance 0 disabled,
instance 1 enabled. -/
def c1s : Service :=
  ⟨0, some "ROUND_ROBIN",
    [⟨"http", "h1", 1, "http://h1:1/", false⟩, ⟨"http", "h2", 2, "http://h2:2/", true⟩]⟩

/-- Witness for C1 at `c1s`. -/
theorem C1_witness :
    c1s.index < c1s.instances.length ∧
    c1s.instances.any (fun inst => inst.enabled) = true ∧
    ∃ k, 1 ≤ k ∧ k ≤ c1s.instances.length ∧
      ROUND_ROBIN c1s =
        (Except.ok ((c1s.index + k) % c1s.instances.length),
          { c1s with index := (c1s.index + k) % c1s.instances.length }) ∧
      enabledAt c1s.instances ((c1s.index + k) % c1s.instances.length) = true ∧
      ∀ j, 1 ≤ j → j < k →
        enabledAt c1s.instances ((c1s.index + j) % c1s.instances.length) = false :=
  ⟨by decide, by decide, C1_round_robin_selects_first_enabled c1s (by decide) (by decide)⟩

/-- C2: with exactly `N` instances all enabled, `N` consecutive selections
return `N` pairwise-distinct indices, whatever the cursor value before the
first selection. -/
theorem C2_cyclic_coverage (s : Service) (N : Nat)
    (hlen : s.instances.length = N) (hN : 1 ≤ N)
    (hall : ∀ inst ∈ s.instances, inst.enabled = true) :
    (selectN N s).1.length = N ∧ (selectN N s).1.Nodup := by
  have hne : s.instances ≠ [] := by
    intro hcon
    rw [hcon] at hlen
    simp at hlen
    omega
  have htr := selectN_all_enabled N s hne hall
  constructor
  · rw [htr]
    simp
  · rw [htr, hlen]
    exact nodup_mod_map N (advance N s.index)

/-- Concrete record for the C2 witness: three enabled instances, cursor 7
(deliberately out of range: the claim quantifies over every starting cursor). -/
def c2s : Service :=
  ⟨7, none,
    [⟨"http", "h1", 1, "http://h1:1/", true⟩, ⟨"http", "h2", 2, "http://h2:2/", true⟩,
     ⟨"http", "h3", 3, "http://h3:3/", true⟩]⟩

/-- Witness for C2 at `c2s`. -/
theorem C2_witness :
    c2s.instances.length = 3 ∧ 1 ≤ 3 ∧
    (∀ inst ∈ c2s.instances, inst.enabled = true) ∧
    (selectN 3 c2s).1.length = 3 ∧ (selectN 3 c2s).1.Nodup :=
  ⟨by decide, by decide, by decide,
    (C2_cyclic_coverage c2s 3 (by decide) (by decide) (by decide)).1,
    (C2_cyclic_coverage c2s 3 (by decide) (by decide) (by decide)).2⟩

/-- C10 (implicit): with at least one enabled instance, a selection started
from a cursor with `cursor + 1 ≥ instances.length` (as unregister can leave
it) resets the cursor to 0 before checking: the first probed position is 0,
the selection still returns an in-range enabled index, and if instance 0 is
enabled it is the one returned. -/
theorem C10_out_of_range_cursor_reset (s : Service)
    (hen : s.instances.any (fun inst => inst.enabled) = true)
    (hout : s.instances.length ≤ s.index + 1) :
    advance s.instances.length s.index = 0 ∧
    (∃ i s', ROUND_ROBIN s = (Except.ok i, s') ∧ i < s.instances.length ∧
      enabledAt s.instances i = true ∧ s' = { s with index := i }) ∧
    (enabledAt s.instances 0 = true → (ROUND_ROBIN s).1 = Except.ok 0) := by
  have hadv : advance s.instances.length s.index = 0 := by
    unfold advance
    split <;> omega
  obtain ⟨k, hk1, hk2, heq, henk, hmin⟩ := rr_select s hen
  refine ⟨hadv, ⟨_, _, heq, lt_of_enabledAt henk, henk, rfl⟩, ?_⟩
  intro h0
  have h1 : iterAdvance s.instances.length 1 s.index = 0 := by
    have h3 : iterAdvance s.instances.length 1 s.index =
        advance s.instances.length s.index := rfl
    rw [h3, hadv]
  by_cases hk : k = 1
  · subst hk
    rw [heq]
    simp [h1]
  · exfalso
    have h2 : enabledAt s.instances (iterAdvance s.instances.length 1 s.index) = false :=
      hmin 1 (le_refl 1) (by omega)
    rw [h1, h0] at h2
    exact absurd h2 (by simp)

/-- Concrete record for the C10 witness: cursor 5 with only two instances,
as a stale cursor after unregisters; instance 0 disabled so the selection
proceeds past the reset position. -/
def c10s : Service :=
  ⟨5, some "ROUND_ROBIN",
    [⟨"http", "h1", 1, "http://h1:1/", false⟩, ⟨"http", "h2", 2, "http://h2:2/", true⟩]⟩

/-- Witness for C10 at `c10s`. -/
theorem C10_witness :
    c10s.instances.any (fun inst => inst.enabled) = true ∧
    c10s.instances.length ≤ c10s.index + 1 ∧
    (advance c10s.instances.length c10s.index = 0 ∧
      (∃ i s', ROUND_ROBIN c10s = (Except.ok i, s') ∧ i < c10s.instances.length ∧
        enabledAt c10s.instances i = true ∧ s' = { c10s with index := i }) ∧
      (enabledAt c10s.instances 0 = true → (ROUND_ROBIN c10s).1 = Except.ok 0)) :=
  ⟨by decide, by decide, C10_out_of_range_cursor_reset c10s (by decide) (by decide)⟩

/-- C3: with every instance disabled (or none at all), the selection inside a
forward request fails at once with the distinguishable
`No enabled instances available` throw — for every fuel the fuelled recursion
returns that error immediately, so the JS recursion neither loops nor reads
out of bounds — and the client still receives the structured 500 payload of
the gateway error handler. -/
theorem C3_no_backend_bounded_failure (r : Registry) (name : String) (s : Service)
    (down : Downstream)
    (hlk : lookupService r name = some s)
    (hstrat : s.loadBalanceStrategy = none ∨ s.loadBalanceStrategy = some "ROUND_ROBIN")
    (hno : s.instances.any (fun inst => inst.enabled) = false) :
    (handleApiRequest r name down).2 =
      Except.error (JsError.thrown "No enabled instances available") ∧
    (∀ fuel (s' : Service), 1 ≤ fuel →
      s'.instances.any (fun inst => inst.enabled) = false →
      (roundRobinFuel fuel s').1 = Except.error RRError.noEnabledInstances) ∧
    gatewayRespond (handleApiRequest r name down).2 =
      ⟨500, JsonV.obj [("error", JsonV.str "Internal Server Error. Please try again later.")]⟩ := by
  have hbound : ∀ fuel (s' : Service), 1 ≤ fuel →
      s'.instances.any (fun inst => inst.enabled) = false →
      (roundRobinFuel fuel s').1 = Except.error RRError.noEnabledInstances := by
    intro fuel s' hf hno'
    obtain ⟨f, rfl⟩ : ∃ f, fuel = f + 1 := ⟨fuel - 1, by omega⟩
    rw [roundRobinFuel_noEnabled hno']
  have hno1 : (({ s with loadBalanceStrategy := some "ROUND_ROBIN" } : Service)).instances.any
      (fun inst => inst.enabled) = false := hno
  have hrr : ROUND_ROBIN { s with loadBalanceStrategy := some "ROUND_ROBIN" } =
      (Except.error RRError.noEnabledInstances,
        { s with loadBalanceStrategy := some "ROUND_ROBIN",
                 index := advance s.instances.length s.index }) :=
    roundRobinFuel_noEnabled hno1
  have hmain : (handleApiRequest r name down).2 =
      Except.error (JsError.thrown "No enabled instances available") := by
    rcases hstrat with h | h
    · simp only [handleApiRequest, hlk, h, hrr]
    · simp only [handleApiRequest, hlk, h, hrr]
  exact ⟨hmain, hbound, by rw [hmain]; rfl⟩

/-- Concrete registry for the C3 witness: one service whose single instance
is disabled. -/
def c3s : Service := ⟨0, none, [⟨"http", "h1", 1, "http://h1:1/", false⟩]⟩

/-- Concrete registry for the C3 witness. -/
def c3r : Registry := [("salestracking", c3s)]

/-- Witness for C3 at `c3r`. -/
theorem C3_witness :
    lookupService c3r "salestracking" = some c3s ∧
    (c3s.loadBalanceStrategy = none ∨ c3s.loadBalanceStrategy = some "ROUND_ROBIN") ∧
    c3s.instances.any (fun inst => inst.enabled) = false ∧
    ((handleApiRequest c3r "salestracking" (Downstream.response 200 JsonV.null)).2 =
        Except.error (JsError.thrown "No enabled instances available") ∧
      (∀ fuel (s' : Service), 1 ≤ fuel →
        s'.instances.any (fun inst => inst.enabled) = false →
        (roundRobinFuel fuel s').1 = Except.error RRError.noEnabledInstances) ∧
      gatewayRespond (handleApiRequest c3r "salestracking"
          (Downstream.response 200 JsonV.null)).2 =
        ⟨500, JsonV.obj [("error", JsonV.str "Internal Server Error. Please try again later.")]⟩) :=
  ⟨by decide, Or.inl rfl, by decide,
    C3_no_backend_bounded_failure c3r "salestracking" c3s
      (Downstream.response 200 JsonV.null) (by decide) (Or.inl rfl) (by decide)⟩

/-- A run of register calls against one service name, each derived url fresh
for the current list and the urls pairwise distinct: every call succeeds with
a 200 and appends exactly its instance. -/
theorem registerAll_fresh :
    ∀ (bodies : List RegBody) (r : Registry) (a : String) (s : Service),
    lookupService r a = some s →
    (∀ b ∈ bodies, b.apiName = a) →
    (bodies.map deriveUrl).Nodup →
    (∀ b ∈ bodies, apiAlreadyExists s (some (deriveUrl b)) = false) →
    ∃ s', lookupService (registerAll r bodies).1 a = some s' ∧
      s'.instances = s.instances ++ bodies.map mkInstance ∧
      (registerAll r bodies).2.length = bodies.length ∧
      ∀ resp ∈ (registerAll r bodies).2, ∃ m, resp = Except.ok ⟨200, m⟩ := by
  intro bodies
  induction bodies with
  | nil =>
    intro r a s hlk _ _ _
    refine ⟨s, ?_, by simp, by simp [registerAll], by simp [registerAll]⟩
    simpa [registerAll] using hlk
  | cons b rest ih =>
    intro r a s hlk hall hnodup hfresh
    have hba : b.apiName = a := hall b (by simp)
    have hdup : apiAlreadyExists s (some (deriveUrl b)) = false := hfresh b (by simp)
    have hreg : registerRoute r b none =
        (updateService r a (registerInstance s (mkInstance b)),
          Except.ok ⟨200, JsonV.obj [("message", JsonV.str
            ("Successfully registered '" ++ a ++ "'"))]⟩) := by
      simp [registerRoute, hba, hlk, hdup]
    have hlk1 : lookupService (updateService r a (registerInstance s (mkInstance b))) a =
        some (registerInstance s (mkInstance b)) :=
      lookupService_update_self r a s _ hlk
    have hall' : ∀ b' ∈ rest, b'.apiName = a := fun b' hb' => hall b' (by simp [hb'])
    have hnodup' : (rest.map deriveUrl).Nodup := by
      rw [List.map_cons, List.nodup_cons] at hnodup
      exact hnodup.2
    have hfresh' : ∀ b' ∈ rest,
        apiAlreadyExists (registerInstance s (mkInstance b)) (some (deriveUrl b')) = false := by
      intro b' hb'
      have h1 : apiAlreadyExists s (some (deriveUrl b')) = false := hfresh b' (by simp [hb'])
      have hne : deriveUrl b ≠ deriveUrl b' := by
        rw [List.map_cons, List.nodup_cons] at hnodup
        intro hEq
        exact hnodup.1 (hEq ▸ List.mem_map_of_mem deriveUrl hb')
      simp only [apiAlreadyExists, registerInstance, List.any_append, Bool.or_eq_false_iff]
      refine ⟨h1, ?_⟩
      simp [mkInstance, hne]
    obtain ⟨s', hs1, hs2, hs3, hs4⟩ :=
      ih (updateService r a (registerInstance s (mkInstance b))) a
        (registerInstance s (mkInstance b)) hlk1 hall' hnodup' hfresh'
    cases hra : registerAll (updateService r a (registerInstance s (mkInstance b))) rest with
    | mk r2 resps =>
      have hwhole : registerAll r (b :: rest) =
          (r2, Except.ok ⟨200, JsonV.obj [("message", JsonV.str
            ("Successfully registered '" ++ a ++ "'"))]⟩ :: resps) := by
        simp [registerAll, hreg, hra]
      rw [hra] at hs1 hs3 hs4
      refine ⟨s', ?_, ?_, ?_, ?_⟩
      · rw [hwhole]
        exact hs1
      · rw [hs2]
        simp [registerInstance]
      · rw [hwhole]
        simpa using hs3
      · rw [hwhole]
        intro resp hresp
        rcases List.mem_cons.mp hresp with h | h
        · exact ⟨_, h⟩
        · exact hs4 resp h

/-- C4: a register call whose derived url equals the url of an instance
already present is answered 400 with the conflict message and leaves the
registry unchanged; and a sequence of register calls with pairwise-distinct
derived urls against one service name starting from an empty instance list
all succeed, the final instance list length equalling the number of
successful (200) registrations. -/
theorem C4_register_duplicate_and_distinct :
    (∀ (r : Registry) (b : RegBody) (s : Service) (persist : Option String),
      lookupService r b.apiName = some s →
      apiAlreadyExists s (some (deriveUrl b)) = true →
      registerRoute r b persist =
        (r, Except.ok ⟨400, JsonV.obj [("message", JsonV.str
          ("Configuration already exists for '" ++ b.apiName ++ "' at '" ++
            deriveUrl b ++ "'"))]⟩)) ∧
    (∀ (r : Registry) (a : String) (s : Service) (bodies : List RegBody),
      lookupService r a = some s → s.instances = [] →
      (∀ b ∈ bodies, b.apiName = a) →
      (bodies.map deriveUrl).Nodup →
      ∃ s', lookupService (registerAll r bodies).1 a = some s' ∧
        s'.instances.length = bodies.length ∧
        (registerAll r bodies).2.length = bodies.length ∧
        ∀ resp ∈ (registerAll r bodies).2, ∃ m, resp = Except.ok ⟨200, m⟩) := by
  constructor
  · intro r b s persist hlk hdup
    simp [registerRoute, hlk, hdup]
  · intro r a s bodies hlk hempty hall hnodup
    have hfresh : ∀ b ∈ bodies, apiAlreadyExists s (some (deriveUrl b)) = false := by
      intro b _
      simp [apiAlreadyExists, hempty]
    obtain ⟨s', hs1, hs2, hs3, hs4⟩ := registerAll_fresh bodies r a s hlk hall hnodup hfresh
    refine ⟨s', hs1, ?_, hs3, hs4⟩
    rw [hs2, hempty]
    simp

/-- Concrete registry for the C4 witness: service `foo`, one instance already
registered at `http://h1:1/`. -/
def c4rDup : Registry :=
  [("foo", ⟨0, none, [⟨"http", "h1", 1, "http://h1:1/", true⟩]⟩)]

/-- Concrete registry for the C4 witness fold: service `foo`, no instances. -/
def c4rEmpty : Registry := [("foo", ⟨0, none, []⟩)]

/-- Witness for C4: the duplicate part at `c4rDup` with the same url derived
again, and the fold part at `c4rEmpty` with two distinct urls. -/
theorem C4_witness :
    (lookupService c4rDup "foo" = some ⟨0, none, [⟨"http", "h1", 1, "http://h1:1/", true⟩]⟩ ∧
      apiAlreadyExists ⟨0, none, [⟨"http", "h1", 1, "http://h1:1/", true⟩]⟩
        (some (deriveUrl ⟨"foo", "http", "h1", 1⟩)) = true ∧
      registerRoute c4rDup ⟨"foo", "http", "h1", 1⟩ none =
        (c4rDup, Except.ok ⟨400, JsonV.obj [("message", JsonV.str
          ("Configuration already exists for '" ++ ("foo" : String) ++ "' at '" ++
            deriveUrl ⟨"foo", "http", "h1", 1⟩ ++ "'"))]⟩)) ∧
    (lookupService c4rEmpty "foo" = some ⟨0, none, []⟩ ∧
      ∃ s', lookupService
          (registerAll c4rEmpty [⟨"foo", "http", "h1", 1⟩, ⟨"foo", "http", "h2", 2⟩]).1
          "foo" = some s' ∧
        s'.instances.length = 2 ∧
        (registerAll c4rEmpty [⟨"foo", "http", "h1", 1⟩, ⟨"foo", "http", "h2", 2⟩]).2.length = 2 ∧
        ∀ resp ∈ (registerAll c4rEmpty
            [⟨"foo", "http", "h1", 1⟩, ⟨"foo", "http", "h2", 2⟩]).2,
          ∃ m, resp = Except.ok ⟨200, m⟩) :=
  ⟨⟨by decide, by decide,
      C4_register_duplicate_and_distinct.1 c4rDup ⟨"foo", "http", "h1", 1⟩
        ⟨0, none, [⟨"http", "h1", 1, "http://h1:1/", true⟩]⟩ none (by decide) (by decide)⟩,
    ⟨by decide,
      C4_register_duplicate_and_distinct.2 c4rEmpty "foo" ⟨0, none, []⟩
        [⟨"foo", "http", "h1", 1⟩, ⟨"foo", "http", "h2", 2⟩]
        (by decide) rfl (by decide) (by decide)⟩⟩

/-- A downstream error body as the C5 counterexample uses it. -/
def c5DownBody : JsonV := JsonV.obj [("message", JsonV.str "sale not found")]

/-- C5 counterexample: a downstream 404 with body
`{message: "sale not found"}` is relayed with its status but with the body
wrapped into `{message, error}` — not the downstream body verbatim. -/
theorem C5_counterexample :
    (relayDownstream (Downstream.response 404 c5DownBody)).status = 404 ∧
    relayDownstream (Downstream.response 404 c5DownBody) ≠ ⟨404, c5DownBody⟩ := by
  constructor
  · rfl
  · intro h
    have h2 := congrArg (fun resp => topFieldCount resp.body) h
    exact absurd h2 (by decide)

/-- C5 amended: the downstream status code is always relayed verbatim; the
body is relayed verbatim exactly for 2xx responses, while for an error
status the body is wrapped into `{message: body.message || 'An error
occurred', error: body}`; and whenever the forward route reaches a selected
instance, the response it writes is exactly this relay of the downstream
outcome. -/
theorem C5_relay_status_verbatim_body_wrapped :
    (∀ (st : Nat) (body : JsonV),
      (relayDownstream (Downstream.response st body)).status = st) ∧
    (∀ (st : Nat) (body : JsonV), 200 ≤ st → st < 300 →
      relayDownstream (Downstream.response st body) = ⟨st, body⟩) ∧
    (∀ (st : Nat) (body : JsonV), ¬(200 ≤ st ∧ st < 300) →
      relayDownstream (Downstream.response st body) = ⟨st, wrapAxiosErrorBody body⟩) ∧
    (∀ (r : Registry) (name : String) (s : Service) (down : Downstream),
      lookupService r name = some s →
      s.loadBalanceStrategy = some "ROUND_ROBIN" →
      s.instances.any (fun inst => inst.enabled) = true →
      (handleApiRequest r name down).2 = Except.ok (relayDownstream down)) := by
  refine ⟨?_, ?_, ?_, ?_⟩
  · intro st body
    simp only [relayDownstream]
    split <;> rfl
  · intro st body h1 h2
    simp only [relayDownstream]
    rw [if_pos ⟨h1, h2⟩]
  · intro st body h
    simp only [relayDownstream]
    rw [if_neg h]
  · intro r name s down hlk hstrat hen
    have hen1 : (({ s with loadBalanceStrategy := some "ROUND_ROBIN" } : Service)).instances.any
        (fun inst => inst.enabled) = true := hen
    obtain ⟨k, _, _, heq, henk, _⟩ :=
      rr_select { s with loadBalanceStrategy := some "ROUND_ROBIN" } hen1
    have heq2 : ROUND_ROBIN { s with loadBalanceStrategy := some "ROUND_ROBIN" } =
        (Except.ok (iterAdvance s.instances.length k s.index),
          { s with loadBalanceStrategy := some "ROUND_ROBIN",
                   index := iterAdvance s.instances.length k s.index }) := heq
    have henk2 : enabledAt s.instances (iterAdvance s.instances.length k s.index) = true := henk
    have hlt := lt_of_enabledAt henk2
    have hget := List.getElem?_eq_getElem hlt
    simp only [handleApiRequest, hlk, hstrat, heq2, hget]

/-- Concrete service and registry for the C5 witness. -/
def c5s : Service := ⟨0, some "ROUND_ROBIN", [⟨"http", "h1", 1, "http://h1:1/", true⟩]⟩

/-- Concrete registry for the C5 witness. -/
def c5r : Registry := [("foo", c5s)]

/-- Witness for C5 (amended) at concrete statuses and a concrete registry. -/
theorem C5_witness :
    (relayDownstream (Downstream.response 503 (JsonV.str "oops"))).status = 503 ∧
    (200 ≤ 204 ∧ 204 < 300 ∧
      relayDownstream (Downstream.response 204 (JsonV.str "ok")) = ⟨204, JsonV.str "ok"⟩) ∧
    (¬(200 ≤ 404 ∧ 404 < 300) ∧
      relayDownstream (Downstream.response 404 c5DownBody) =
        ⟨404, wrapAxiosErrorBody c5DownBody⟩) ∧
    (lookupService c5r "foo" = some c5s ∧
      c5s.loadBalanceStrategy = some "ROUND_ROBIN" ∧
      c5s.instances.any (fun inst => inst.enabled) = true ∧
      (handleApiRequest c5r "foo" (Downstream.response 404 c5DownBody)).2 =
        Except.ok (relayDownstream (Downstream.response 404 c5DownBody))) :=
  ⟨C5_relay_status_verbatim_body_wrapped.1 503 (JsonV.str "oops"),
    ⟨by decide, by decide,
      C5_relay_status_verbatim_body_wrapped.2.1 204 (JsonV.str "ok") (by decide) (by decide)⟩,
    ⟨by decide,
      C5_relay_status_verbatim_body_wrapped.2.2.1 404 c5DownBody (by decide)⟩,
    ⟨by decide, rfl, by decide,
      C5_relay_status_verbatim_body_wrapped.2.2.2 c5r "foo" c5s
        (Downstream.response 404 c5DownBody) (by decide) rfl (by decide)⟩⟩

/-- The instance registered at sales-tracking startup, for C6. -/
def c6Instance : Instance := ⟨"http", "localhost", 4001, "http://localhost:4001/", true⟩

/-- Registry holding that instance under its service name, for C6. -/
def c6Registry : Registry := [("salestracking", ⟨0, some "ROUND_ROBIN", [c6Instance]⟩)]

/-- The documented unregister body `{apiName, protocol, host, port}`, for C6. -/
def c6Body : RegBody := ⟨"salestracking", "http", "localhost", 4001⟩

/-- C6: the unregister route never re-derives the url from protocol, host and
port (register does, on line 96; the unregister handler lines 121-147 only
reads `registrationInfo.url`, which the documented body does not carry), so
even though the url derived from the body matches the registered instance
exactly, the call answers 404 and removes nothing. -/
theorem C6_unregister_never_rederives_url :
    deriveUrl c6Body = c6Instance.url ∧
    unregisterRoute c6Registry "salestracking" none none =
      (c6Registry, Except.ok ⟨404, JsonV.obj [("message", JsonV.str
        ("Configuration does not exist for '" ++ "salestracking" ++ "' at '" ++
          urlText none ++ "'"))]⟩) := by
  constructor
  · rfl
  · rfl

/-- Concrete service and registry for C7. -/
def c7s : Service := ⟨0, some "ROUND_ROBIN", [⟨"http", "h1", 1, "http://h1:1/", true⟩]⟩

/-- Registry knowing only the service name `users`, for C7. -/
def c7r : Registry := [("users", c7s)]

/-- C7 counterexample: an enable/disable call for a service name absent from
the registry does not produce the claimed 404 response — line 14 reads
`registry.services[apiName].instances` of `undefined` and the handler dies
with a TypeError. -/
theorem C7_counterexample :
    lookupService c7r "orders" = none ∧
    enableOrDisableRoute c7r "orders" "http://h1:1/" true none =
      (c7r, Except.error JsError.typeError) := by
  exact ⟨rfl, rfl⟩

/-- C7 amended: when the service exists but no instance matches the url, the
call answers 404 with the structured payload and changes nothing; when the
service name itself is unknown the route instead throws a TypeError (the
client then sees the generic 500 of the gateway error handler, not a 404);
when an instance matches, its flag is set and a 200 confirmation returned. -/
theorem C7_enable_disable_amended :
    (∀ (r : Registry) (a u : String) (b : Bool) (persist : Option String),
      lookupService r a = none →
      enableOrDisableRoute r a u b persist = (r, Except.error JsError.typeError)) ∧
    (∀ (r : Registry) (a u : String) (b : Bool) (persist : Option String) (s : Service),
      lookupService r a = some s →
      s.instances.findIdx? (fun inst => inst.url == u) = none →
      enableOrDisableRoute r a u b persist =
        (r, Except.ok ⟨404, JsonV.obj [("status", JsonV.str "error"), ("message", JsonV.str
          ("Could not find '" ++ u ++ "' for service '" ++ a ++ "'"))]⟩)) ∧
    (∀ (r : Registry) (a u : String) (b : Bool) (s : Service) (i : Nat),
      lookupService r a = some s →
      s.instances.findIdx? (fun inst => inst.url == u) = some i →
      enableOrDisableRoute r a u b none =
        (updateService r a (setEnabledAt s i b),
          Except.ok ⟨200, JsonV.obj [("message", JsonV.str
            ("Successfully enable/disable '" ++ u ++ "' for service '" ++ a ++ "'"))]⟩)) := by
  refine ⟨?_, ?_, ?_⟩
  · intro r a u b persist hlk
    simp [enableOrDisableRoute, hlk]
  · intro r a u b persist s hlk hfind
    simp [enableOrDisableRoute, hlk, hfind]
  · intro r a u b s i hlk hfind
    simp [enableOrDisableRoute, hlk, hfind]

/-- Witness for C7 (amended): all three branches at concrete registries. -/
theorem C7_witness :
    (lookupService c7r "orders" = none ∧
      enableOrDisableRoute c7r "orders" "http://h1:1/" true none =
        (c7r, Except.error JsError.typeError)) ∧
    (lookupService c7r "users" = some c7s ∧
      c7s.instances.findIdx? (fun inst => inst.url == "http://h9:9/") = none ∧
      enableOrDisableRoute c7r "users" "http://h9:9/" true none =
        (c7r, Except.ok ⟨404, JsonV.obj [("status", JsonV.str "error"), ("message", JsonV.str
          ("Could not find '" ++ "http://h9:9/" ++ "' for service '" ++ "users" ++ "'"))]⟩)) ∧
    (lookupService c7r "users" = some c7s ∧
      c7s.instances.findIdx? (fun inst => inst.url == "http://h1:1/") = some 0 ∧
      enableOrDisableRoute c7r "users" "http://h1:1/" false none =
        (updateService c7r "users" (setEnabledAt c7s 0 false),
          Except.ok ⟨200, JsonV.obj [("message", JsonV.str
            ("Successfully enable/disable '" ++ "http://h1:1/" ++ "' for service '" ++
              "users" ++ "'"))]⟩)) :=
  ⟨⟨by decide, C7_enable_disable_amended.1 c7r "orders" "http://h1:1/" true none (by decide)⟩,
    ⟨by decide, by decide,
      C7_enable_disable_amended.2.1 c7r "users" "http://h9:9/" true none c7s
        (by decide) (by decide)⟩,
    ⟨by decide, by decide,
      C7_enable_disable_amended.2.2 c7r "users" "http://h1:1/" false c7s 0
        (by decide) (by decide)⟩⟩

/-- C8: for each mutating route, when the durable write fails after the
in-memory mutation, the caller is answered with a 500 error response while
the registry state equals the state of the successful-persist run — the
mutation is not rolled back. -/
theorem C8_persist_failure_keeps_mutation :
    (∀ (r : Registry) (b : RegBody) (s : Service) (e : String),
      lookupService r b.apiName = some s →
      apiAlreadyExists s (some (deriveUrl b)) = false →
      (registerRoute r b (some e)).1 = (registerRoute r b none).1 ∧
      (registerRoute r b (some e)).2 = Except.ok ⟨500, JsonV.obj [("message", JsonV.str
        ("Could not register '" ++ b.apiName ++ "'\n" ++ e))]⟩ ∧
      (registerRoute r b none).2 = Except.ok ⟨200, JsonV.obj [("message", JsonV.str
        ("Successfully registered '" ++ b.apiName ++ "'"))]⟩) ∧
    (∀ (r : Registry) (a u : String) (s : Service) (e : String),
      lookupService r a = some s →
      apiAlreadyExists s (some u) = true →
      (unregisterRoute r a (some u) (some e)).1 = (unregisterRoute r a (some u) none).1 ∧
      (unregisterRoute r a (some u) (some e)).2 = Except.ok ⟨500, JsonV.obj [("message",
        JsonV.str ("Could not unregister '" ++ a ++ "'\n" ++ e))]⟩ ∧
      (unregisterRoute r a (some u) none).2 = Except.ok ⟨201, JsonV.obj [("message",
        JsonV.str ("Successfully unregistered '" ++ a ++ "'"))]⟩) ∧
    (∀ (r : Registry) (a u : String) (b : Bool) (s : Service) (i : Nat) (e : String),
      lookupService r a = some s →
      s.instances.findIdx? (fun inst => inst.url == u) = some i →
      (enableOrDisableRoute r a u b (some e)).1 = (enableOrDisableRoute r a u b none).1 ∧
      (enableOrDisableRoute r a u b (some e)).2 = Except.ok ⟨500, JsonV.obj [("message",
        JsonV.str ("Could not enable/disable '" ++ u ++ "' for service '" ++ a ++ "'\n" ++
          e))]⟩ ∧
      (enableOrDisableRoute r a u b none).2 = Except.ok ⟨200, JsonV.obj [("message",
        JsonV.str ("Successfully enable/disable '" ++ u ++ "' for service '" ++ a ++
          "'"))]⟩) := by
  refine ⟨?_, ?_, ?_⟩
  · intro r b s e hlk hdup
    refine ⟨?_, ?_, ?_⟩ <;> simp [registerRoute, hlk, hdup]
  · intro r a u s e hlk hex
    refine ⟨?_, ?_, ?_⟩ <;> simp [unregisterRoute, hlk, hex]
  · intro r a u b s i e hlk hfind
    refine ⟨?_, ?_, ?_⟩ <;> simp [enableOrDisableRoute, hlk, hfind]

/-- Witness for C8: all three mutating routes at a concrete registry with a
concrete write-error text. -/
theorem C8_witness :
    (lookupService c4rEmpty "foo" = some ⟨0, none, []⟩ ∧
      apiAlreadyExists ⟨0, none, []⟩ (some (deriveUrl ⟨"foo", "http", "h1", 1⟩)) = false ∧
      ((registerRoute c4rEmpty ⟨"foo", "http", "h1", 1⟩ (some "EACCES")).1 =
          (registerRoute c4rEmpty ⟨"foo", "http", "h1", 1⟩ none).1 ∧
        (registerRoute c4rEmpty ⟨"foo", "http", "h1", 1⟩ (some "EACCES")).2 =
          Except.ok ⟨500, JsonV.obj [("message", JsonV.str
            ("Could not register '" ++ ("foo" : String) ++ "'\n" ++ "EACCES"))]⟩)) ∧
    (lookupService c7r "users" = some c7s ∧
      apiAlreadyExists c7s (some "http://h1:1/") = true ∧
      ((unregisterRoute c7r "users" (some "http://h1:1/") (some "EACCES")).1 =
          (unregisterRoute c7r "users" (some "http://h1:1/") none).1 ∧
        (unregisterRoute c7r "users" (some "http://h1:1/") (some "EACCES")).2 =
          Except.ok ⟨500, JsonV.obj [("message", JsonV.str
            ("Could not unregister '" ++ ("users" : String) ++ "'\n" ++ "EACCES"))]⟩)) ∧
    (lookupService c7r "users" = some c7s ∧
      c7s.instances.findIdx? (fun inst => inst.url == "http://h1:1/") = some 0 ∧
      ((enableOrDisableRoute c7r "users" "http://h1:1/" false (some "EACCES")).1 =
          (enableOrDisableRoute c7r "users" "http://h1:1/" false none).1 ∧
        (enableOrDisableRoute c7r "users" "http://h1:1/" false (some "EACCES")).2 =
          Except.ok ⟨500, JsonV.obj [("message", JsonV.str
            ("Could not enable/disable '" ++ ("http://h1:1/" : String) ++ "' for service '" ++
              ("users" : String) ++ "'\n" ++ "EACCES"))]⟩)) :=
  ⟨⟨by decide, by decide,
      ⟨(C8_persist_failure_keeps_mutation.1 c4rEmpty ⟨"foo", "http", "h1", 1⟩ ⟨0, none, []⟩
          "EACCES" (by decide) (by decide)).1,
        (C8_persist_failure_keeps_mutation.1 c4rEmpty ⟨"foo", "http", "h1", 1⟩ ⟨0, none, []⟩
          "EACCES" (by decide) (by decide)).2.1⟩⟩,
    ⟨by decide, by decide,
      ⟨(C8_persist_failure_keeps_mutation.2.1 c7r "users" "http://h1:1/" c7s "EACCES"
          (by decide) (by decide)).1,
        (C8_persist_failure_keeps_mutation.2.1 c7r "users" "http://h1:1/" c7s "EACCES"
          (by decide) (by decide)).2.1⟩⟩,
    ⟨by decide, by decide,
      ⟨(C8_persist_failure_keeps_mutation.2.2 c7r "users" "http://h1:1/" false c7s 0 "EACCES"
          (by decide) (by decide)).1,
        (C8_persist_failure_keeps_mutation.2.2 c7r "users" "http://h1:1/" false c7s 0 "EACCES"
          (by decide) (by decide)).2.1⟩⟩⟩

/-- The two-instance record before the C9 counterexample unregister. -/
def c9Before : Service :=
  ⟨1, some "ROUND_ROBIN",
    [⟨"http", "h1", 1, "http://h1:1/", true⟩, ⟨"http", "h2", 2, "http://h2:2/", true⟩]⟩

/-- Registry for the C9 counterexample. -/
def c9r : Registry := [("svc", c9Before)]

/-- The record the unregister leaves behind: one instance, cursor still 1. -/
def c9After : Service := ⟨1, some "ROUND_ROBIN", [⟨"http", "h1", 1, "http://h1:1/", true⟩]⟩

/-- C9 counterexample: the cursor invariant holds before, the unregister
route removes the last instance without touching the cursor, and afterwards
the instance list is non-empty with the cursor out of range — the invariant
is not preserved by unregister. -/
theorem C9_counterexample :
    cursorInv c9Before ∧
    (unregisterRoute c9r "svc" (some "http://h2:2/") none).1 = [("svc", c9After)] ∧
    c9After.instances ≠ [] ∧ ¬ c9After.index < c9After.instances.length := by
  exact ⟨by decide, by decide, by decide, by decide⟩

/-- C9 amended: the cursor invariant is preserved by register (on a non-empty
list), by enable/disable, and is (re-)established by every successful
selection from any prior cursor; unregister preserves it only when the cursor
stays below the shrunken length — in general it can leave the cursor out of
range, to be repaired by the next selection. -/
theorem C9_cursor_invariant_amended :
    (∀ (s : Service) (inst : Instance), s.instances ≠ [] → cursorInv s →
      cursorInv (registerInstance s inst)) ∧
    (∀ (s : Service) (i : Nat) (b : Bool), cursorInv s → cursorInv (setEnabledAt s i b)) ∧
    (∀ (s : Service) (i : Nat) (s' : Service), ROUND_ROBIN s = (Except.ok i, s') →
      s'.index < s'.instances.length) ∧
    (∀ (s : Service) (i : Nat), i < s.instances.length →
      s.index + 1 < s.instances.length → cursorInv (removeInstanceAt s i)) := by
  refine ⟨?_, ?_, ?_, ?_⟩
  · intro s inst hne hinv
    intro _
    have h1 : s.index < s.instances.length := hinv hne
    simp only [registerInstance, List.length_append, List.length_cons, List.length_nil]
    omega
  · intro s i b hinv
    simp only [setEnabledAt]
    cases hg : s.instances[i]? with
    | none => exact hinv
    | some inst =>
      intro hne2
      have hne0 : s.instances ≠ [] := by
        intro hcon
        apply hne2
        simp only [hcon, List.set_nil]
      have h1 := hinv hne0
      simpa using h1
  · intro s i s' h
    obtain ⟨h1, _, h3, h4⟩ :=
      roundRobinFuel_ok_shape (s.instances.length + 1) s i s' h
    rw [h1, h3]
    exact h4
  · intro s i hi hidx
    intro _
    have h1 : (s.instances.eraseIdx i).length = s.instances.length - 1 := by
      rw [List.length_eraseIdx]
      simp [hi]
    simp only [removeInstanceAt] at *
    omega

/-- Witness for C9 (amended): all four parts at concrete records. -/
theorem C9_witness :
    (c9Before.instances ≠ [] ∧ cursorInv c9Before ∧
      cursorInv (registerInstance c9Before ⟨"http", "h3", 3, "http://h3:3/", false⟩)) ∧
    (cursorInv c9Before ∧ cursorInv (setEnabledAt c9Before 1 false)) ∧
    (ROUND_ROBIN c9Before =
        (Except.ok 0, ⟨0, some "ROUND_ROBIN", c9Before.instances⟩) ∧
      (⟨0, some "ROUND_ROBIN", c9Before.instances⟩ : Service).index <
        (⟨0, some "ROUND_ROBIN", c9Before.instances⟩ : Service).instances.length) ∧
    (1 < c1s.instances.length ∧ c1s.index + 1 < c1s.instances.length ∧
      cursorInv (removeInstanceAt c1s 1)) :=
  ⟨⟨by decide, by decide,
      C9_cursor_invariant_amended.1 c9Before ⟨"http", "h3", 3, "http://h3:3/", false⟩
        (by decide) (by decide)⟩,
    ⟨by decide, C9_cursor_invariant_amended.2.1 c9Before 1 false (by decide)⟩,
    ⟨rfl,
      C9_cursor_invariant_amended.2.2.1 c9Before 0
        ⟨0, some "ROUND_ROBIN", c9Before.instances⟩ rfl⟩,
    ⟨by decide, by decide,
      C9_cursor_invariant_amended.2.2.2 c1s 1 (by decide) (by decide)⟩⟩

end Gateway
